import Mathlib

/-!
# Verification of the `cf_ai_project` message-in-a-bottle agent

Shallow embedding of `src/agents-starter/src/server.ts` (class `MessageStorage`,
class `Chat`) and `src/agents-starter/src/tools.ts` (tool definitions and the
`executions` map), together with theorems settling the specification claims.

The repository listing contains two revisions of `server.ts`.  Definitions with
the suffix `_v1` embed the first revision (lines 1-167 of the listing);
unsuffixed definitions embed the second, final revision (lines 168-339), whose
SQL strings actually parse under SQLite (`RANDOM()`, `ORDER BY` before
`LIMIT`, `?` bindings).

## JavaScript semantics used by the embedding

`SqlStorageCursor.raw()` yields each result row as an array of column values.
The code reads the count of a one-column `SELECT COUNT(*)` row as
`.raw().next().value[1]`: index `1` of a one-element array, which is
`undefined` in JavaScript.  We model an indexed read as `List.get?`
(an `Option`), and the two JavaScript comparisons the code performs on the
possibly-`undefined` value:

* `undefined > 100` evaluates to `false` (relational comparison on `NaN`);
* `undefined == 0` evaluates to `false` (loose equality of `undefined` only
  matches `null`/`undefined`).

An exhausted row iterator gives `next().value = undefined`, and a subsequent
member access `entry[0]` throws a `TypeError`; thrown exceptions are modelled
with `Except.error`.
-/

namespace CfAi

/-- JavaScript `a > b` where `a` may be `undefined` (`none`):
`undefined > b` is `false`. -/
def jsGt : Option Int → Int → Bool
  | none, _ => false
  | some a, b => a > b

/-- JavaScript loose equality `a == b` where `a` may be `undefined` (`none`)
and `b` is a number: `undefined == b` is `false`. -/
def jsEqNum : Option Int → Int → Bool
  | none, _ => false
  | some a, b => a == b

/-- One row of the `messages` table: `id INTEGER NOT NULL PRIMARY KEY`,
`msg TEXT`. -/
structure Entry where
  id : Nat
  msg : String
  deriving Repr, DecidableEq

/-- The `messages` table, in rowid order. -/
abbrev Store := List Entry

/-- The rowid SQLite assigns to an `INSERT INTO messages (msg) VALUES(?)`
that omits `id`: one more than the largest existing rowid (1 on an empty
table). -/
def nextId (s : Store) : Nat :=
  (s.map Entry.id).foldr max 0 + 1

/-- Effect of `INSERT INTO messages (msg) VALUES(?)` with bound value `msg`. -/
def insertRow (msg : String) (s : Store) : Store :=
  s ++ [⟨nextId s, msg⟩]

/-- The row returned by `SELECT * FROM messages ORDER BY RANDOM() LIMIT 1`:
some row of the table, chosen by the random ordering.  The choice is
modelled by the parameter `pick`; on an empty table the cursor is exhausted
and the row is `none` (JavaScript `undefined`). -/
def selectRandom (pick : Nat) (s : Store) : Option Entry :=
  s.get? (pick % s.length)

/-- Effect of `DELETE FROM messages WHERE id = ?` with bound value `i`. -/
def deleteId (i : Nat) (s : Store) : Store :=
  s.filter (fun x => x.id ≠ i)

/-- The single-column row produced by `SELECT COUNT(*) FROM messages`. -/
def countRow (s : Store) : List Int :=
  [(s.length : Int)]

/-- `MessageStorage.addMessage` (final revision, `server.ts` lines 202-221).

```ts
if (this.ctx.storage.sql.exec("SELECT COUNT(*) FROM messages;")
      .raw().next().value[1] > 100) {
  let entry = this.ctx.storage.sql.exec(
      "SELECT * FROM messages ORDER BY RANDOM() LIMIT 1;").raw().next().value;
  this.ctx.storage.sql.exec("DELETE FROM messages WHERE id = ?;", entry[0]);
}
this.ctx.storage.sql.exec("INSERT INTO messages (msg) VALUES(?);", msg);
return "Message successfully added";
```

`pick` models the `RANDOM()` ordering of the eviction query.  `Except.error`
models a thrown `TypeError` (member access on `undefined`). -/
def addMessage (pick : Nat) (msg : String) (s : Store) :
    Except String (Store × String) :=
  if jsGt ((countRow s).get? 1) 100 then
    match selectRandom pick s with
    | none => .error "TypeError: cannot read entry[0] of undefined"
    | some entry =>
      let s1 := deleteId entry.id s
      .ok (insertRow msg s1, "Message successfully added")
  else
    .ok (insertRow msg s, "Message successfully added")

/-- The in-band empty-store signal returned by `getMessage`
(`server.ts` line 227). -/
def emptySignal : String := "No currently existing messages in bottles"

/-- `MessageStorage.getMessage` (final revision, `server.ts` lines 222-238).

```ts
if (this.ctx.storage.sql.exec("SELECT COUNT(*) FROM messages AS cnt;")
      .raw().next().value[1] == 0) {
  return "No currently existing messages in bottles";
}
let entry = this.ctx.storage.sql.exec(
    "SELECT * FROM messages ORDER BY RANDOM() LIMIT 1;").raw().next().value;
this.ctx.storage.sql.exec("DELETE FROM messages WHERE id = ?;", entry[0]);
return entry[1];
```
-/
def getMessage (pick : Nat) (s : Store) : Except String (Store × String) :=
  if jsEqNum ((countRow s).get? 1) 0 then
    .ok (s, emptySignal)
  else
    match selectRandom pick s with
    | none => .error "TypeError: cannot read entry[0] of undefined"
    | some entry =>
      .ok (deleteId entry.id s, entry.msg)

/-- The SQL command string and bound parameters of the insert statement in the
FIRST revision of `addMessage` (`server.ts` lines 45-48): the user text is
spliced into the command by template-literal interpolation and nothing is
bound. -/
def insertStatement_v1 (msg : String) : String × List String :=
  ("INSERT INTO messages (msg) VALUES (" ++ msg ++ ");", [])

/-- The SQL command string and bound parameters of the insert statement in the
final revision of `addMessage` (`server.ts` lines 216-218): the command is a
fixed string and the user text is passed as a binding. -/
def insertStatement (msg : String) : String × List String :=
  ("INSERT INTO messages (msg) VALUES(?);", [msg])

/-- Iterated `addMessage` starting from an empty store: `addMany n` is the
store after inserting the `n` distinct messages `"0"`, `"1"`, ...,
`toString (n-1)` in order (any eviction pick `0`; the error branch is kept
for totality). -/
def addMany : Nat → Store
  | 0 => []
  | n + 1 =>
    match addMessage 0 (toString n) (addMany n) with
    | .ok r => r.1
    | .error _ => addMany n

/-! ## Basic lemmas about the store operations -/

theorem countRow_get_one (s : Store) : (countRow s).get? 1 = none := rfl

/-- The capacity guard of `addMessage` compares `undefined` with 100 and so
never fires: `addMessage` always takes the plain-insert path. -/
theorem addMessage_eq (pick : Nat) (msg : String) (s : Store) :
    addMessage pick msg s = .ok (insertRow msg s, "Message successfully added") := by
  simp [addMessage, countRow, jsGt]

theorem insertRow_length (msg : String) (s : Store) :
    (insertRow msg s).length = s.length + 1 := by
  simp [insertRow]

theorem addMany_succ (n : Nat) :
    addMany (n + 1) = insertRow (toString n) (addMany n) := by
  simp [addMany, addMessage_eq]

theorem addMany_length (n : Nat) : (addMany n).length = n := by
  induction n with
  | zero => rfl
  | succ n ih =>
    rw [addMany_succ, insertRow_length, ih]

theorem mem_insertRow (msg : String) (s : Store) :
    msg ∈ (insertRow msg s).map Entry.msg := by
  simp [insertRow]

theorem selectRandom_mem (pick : Nat) (s : Store) (h : s ≠ []) :
    ∃ e, selectRandom pick s = some e ∧ e ∈ s := by
  have hlen : 0 < s.length := List.length_pos.mpr h
  have hm : pick % s.length < s.length := Nat.mod_lt _ hlen
  exact ⟨s.get ⟨pick % s.length, hm⟩,
    by simp [selectRandom, List.get?_eq_get hm], s.get_mem _ _⟩

/-- With the `PRIMARY KEY` uniqueness of `id`, deleting the row of a stored
entry removes exactly one row. -/
theorem deleteId_length_of_mem (s : Store) (e : Entry) :
    e ∈ s → (s.map Entry.id).Nodup → (deleteId e.id s).length + 1 = s.length := by
  induction s with
  | nil => intro he _; cases he
  | cons a t ih =>
    intro he hnd
    simp only [List.map_cons, List.nodup_cons, List.mem_map, not_exists,
      not_and] at hnd
    by_cases hid : a.id = e.id
    · have ht : deleteId e.id t = t := by
        apply List.filter_eq_self.mpr
        intro x hx
        simp only [ne_eq, decide_eq_true_eq]
        intro hxe
        exact hnd.1 x hx (by rw [hxe, hid])
      have hcons : deleteId e.id (a :: t) = deleteId e.id t := by
        simp [deleteId, List.filter_cons, hid]
      rw [hcons, ht, List.length_cons]
    · have he' : e ∈ t := by
        rcases List.mem_cons.mp he with he1 | he1
        · exact absurd (by rw [he1]) hid
        · exact he1
      have hih := ih he' hnd.2
      have hcons : deleteId e.id (a :: t) = a :: deleteId e.id t := by
        simp [deleteId, List.filter_cons, hid]
      rw [hcons, List.length_cons, List.length_cons]
      omega

theorem deleteId_not_mem (e : Entry) (s : Store) :
    e.id ∉ (deleteId e.id s).map Entry.id := by
  intro hmem
  rcases List.mem_map.mp hmem with ⟨x, hx, hxe⟩
  have hp := (List.mem_filter.mp hx).2
  simp only [ne_eq, decide_eq_true_eq] at hp
  exact hp hxe

theorem foldr_max_le (l : List Nat) (i : Nat) (hi : i ∈ l) :
    i ≤ l.foldr max 0 := by
  induction l with
  | nil => cases hi
  | cons a t ih =>
    rcases List.mem_cons.mp hi with h | h
    · rw [h, List.foldr_cons]
      exact le_max_left _ _
    · exact le_trans (ih h) (by rw [List.foldr_cons]; exact le_max_right _ _)

/-- The store operations preserve the `PRIMARY KEY` invariant: `insertRow`
assigns a fresh id larger than every stored id, and `deleteId` keeps a
sublist; so the ids of any reachable store are pairwise distinct. -/
theorem insertRow_nodup (msg : String) (s : Store)
    (hnd : (s.map Entry.id).Nodup) :
    ((insertRow msg s).map Entry.id).Nodup := by
  have hlt : ∀ i ∈ s.map Entry.id, i < nextId s := by
    intro i hi
    have := foldr_max_le (s.map Entry.id) i hi
    simp only [nextId]
    omega
  simp only [insertRow, List.map_append, List.map_cons, List.map_nil]
  refine List.Nodup.append hnd (List.nodup_singleton _) ?_
  intro i hi hj
  rw [List.mem_singleton] at hj
  have := hlt i hi
  omega

theorem deleteId_nodup (i : Nat) (s : Store)
    (hnd : (s.map Entry.id).Nodup) :
    ((deleteId i s).map Entry.id).Nodup :=
  List.Nodup.sublist (List.Sublist.map Entry.id (List.filter_sublist s)) hnd

/-! ## Claim theorems about the store -/

/-- C1 (evidence of the code bug): starting from the empty store, 101
`addMessage` calls leave 101 stored entries, exceeding the capacity of 100.
The guard reads index 1 of the one-column COUNT row, so it compares
`undefined > 100`, which is always false, and the eviction branch is dead;
even under the intended index 0 the guard `> 100` would first evict at a
pre-insert count of 101. -/
theorem addMessage_count_exceeds_capacity :
    (addMany 101).length = 101 ∧ 100 < (addMany 101).length := by
  have h := addMany_length 101
  exact ⟨h, by rw [h]; norm_num⟩

/-- C2 (evidence of the code bug): inserting the 101 distinct messages
`"0"`, ..., `"100"` into an empty store leaves a final count of 101, not 100;
the 101st message is indeed present afterwards. -/
theorem addMany101_count_and_presence :
    (addMany 101).length ≠ 100 ∧ (addMany 101).length = 101 ∧
      toString 100 ∈ (addMany 101).map Entry.msg := by
  refine ⟨by rw [addMany_length]; norm_num, addMany_length 101, ?_⟩
  rw [show (101 : Nat) = 100 + 1 from rfl, addMany_succ]
  exact mem_insertRow _ _

/-- C3 (evidence of the code bug): on an empty store `getMessage` throws a
`TypeError` instead of returning the empty-signal: the empty check compares
`undefined == 0` (index 1 of the one-column COUNT row), which is false, so
the code falls through to the random SELECT, whose exhausted cursor yields
`undefined`, and `entry[0]` throws. -/
theorem getMessage_empty_throws (pick : Nat) :
    getMessage pick ([] : Store)
      = .error "TypeError: cannot read entry[0] of undefined" := by
  have hsel : selectRandom pick ([] : Store) = none := by
    simp [selectRandom]
  unfold getMessage
  rw [countRow_get_one, hsel]
  rfl

/-- C4: on a non-empty store whose ids are distinct (the `PRIMARY KEY`
invariant), `getMessage` returns the text of some stored entry and deletes
exactly that entry: the count drops by exactly one and the popped entry's id
is no longer present, so it can never be returned again without an
intervening insert. -/
theorem getMessage_pops (pick : Nat) (s : Store) (hne : s ≠ [])
    (hnd : (s.map Entry.id).Nodup) :
    ∃ e ∈ s, getMessage pick s = .ok (deleteId e.id s, e.msg) ∧
      (deleteId e.id s).length + 1 = s.length ∧
      e.id ∉ (deleteId e.id s).map Entry.id := by
  obtain ⟨e, hsel, hmem⟩ := selectRandom_mem pick s hne
  refine ⟨e, hmem, ?_, deleteId_length_of_mem s e hmem hnd,
    deleteId_not_mem e s⟩
  unfold getMessage
  rw [countRow_get_one, hsel]
  rfl

/-- Witness for C4 at the concrete store `[⟨1, "a"⟩, ⟨2, "b"⟩]` with pick 1. -/
theorem getMessage_pops_witness :
    ∃ e ∈ ([⟨1, "a"⟩, ⟨2, "b"⟩] : Store),
      getMessage 1 [⟨1, "a"⟩, ⟨2, "b"⟩] = .ok (deleteId e.id [⟨1, "a"⟩, ⟨2, "b"⟩], e.msg) ∧
      (deleteId e.id [⟨1, "a"⟩, ⟨2, "b"⟩]).length + 1 = ([⟨1, "a"⟩, ⟨2, "b"⟩] : Store).length ∧
      e.id ∉ (deleteId e.id [⟨1, "a"⟩, ⟨2, "b"⟩]).map Entry.id :=
  getMessage_pops 1 [⟨1, "a"⟩, ⟨2, "b"⟩] (by decide) (by decide)

/-- C5 (evidence of the code bug): the first revision's insert statement
splices the user text into the executed SQL command (the command string
varies with the text) and binds no parameters, whereas the final revision's
command is one fixed string with the text passed as a binding. -/
theorem insertStatement_v1_interpolates :
    (insertStatement_v1 "hello").2 = [] ∧
      (insertStatement_v1 "hello").1 ≠ (insertStatement_v1 "world").1 ∧
      (insertStatement "hello").1 = (insertStatement "world").1 ∧
      (insertStatement "hello").2 = ["hello"] := by
  refine ⟨rfl, by decide, rfl, rfl⟩

/-! ## The `scheduleTask` tool (`tools.ts` lines 50-79) -/

/-- The `when` input of the `scheduleTask` tool as it reaches `execute`: the
discriminator string and the three optional payload fields of
`scheduleSchema`. -/
structure ScheduleWhen where
  type : String
  date : Option Nat
  delayInSeconds : Option Nat
  cron : Option String
  deriving Repr, DecidableEq

/-- JavaScript template-literal rendering of a possibly-`undefined` value. -/
def jsStr : Option String → String
  | none => "undefined"
  | some s => s

/-- The `try { agent.schedule(...) } catch` block and the final return of
`scheduleTask.execute`: a thrown scheduling error is caught and rendered as
an ordinary result string. -/
def runSched (sched : Except String Unit) (ty input : String) :
    Except String String :=
  match sched with
  | .error e => .ok ("Error scheduling task: " ++ e)
  | .ok _ => .ok ("Task scheduled for type \"" ++ ty ++ "\" : " ++ input)

/-- `scheduleTask.execute` (`tools.ts` lines 53-78).  The discriminator chain
of the source: `"no-schedule"` returns the in-band validation message, the
three trigger variants select their payload and call `agent.schedule`
(modelled by `sched`), and any other discriminator reaches `throwError`,
i.e. an exception (`Except.error`) thrown outside the try/catch. -/
def scheduleTaskExecute (sched : Except String Unit) (w : ScheduleWhen) :
    Except String String :=
  if w.type = "no-schedule" then
    .ok "Not a valid schedule input"
  else if w.type = "scheduled" then
    runSched sched w.type (jsStr (w.date.map toString))
  else if w.type = "delayed" then
    runSched sched w.type (jsStr (w.delayInSeconds.map toString))
  else if w.type = "cron" then
    runSched sched w.type (jsStr w.cron)
  else
    .error "not a valid schedule input"

/-- Modelled from the spec: `scheduleSchema`, the tool's `inputSchema`, is
imported from the external `agents` package and is not under `src/`.  Spec
§4.5: the trigger is "absolute timestamp, relative delay in seconds, or a
cron expression; the input discriminator from the caller must map 1:1 onto
exactly one of these three, and any other discriminator value is a
validation error surfaced back to the caller (not a crash)"; the execute
body additionally handles the schema's `"no-schedule"` variant. -/
def scheduleSchemaAccepts (w : ScheduleWhen) : Bool :=
  if w.type = "no-schedule" then true
  else if w.type = "scheduled" then w.date.isSome
  else if w.type = "delayed" then w.delayInSeconds.isSome
  else if w.type = "cron" then w.cron.isSome
  else false

/-- Outcome of one tool call as seen by the caller: an ordinary result, an
input-validation error surfaced by the framework, or an exception escaping
the tool. -/
inductive ToolCallOutcome where
  | result (s : String)
  | invalidInput
  | crashed (e : String)
  deriving Repr, DecidableEq

/-- The full `scheduleTask` tool call: the framework validates the input
against the schema before `execute` runs; schema-invalid input is surfaced
as a validation-error result, and an exception escaping `execute` crashes
the call. -/
def scheduleTaskCall (sched : Except String Unit) (w : ScheduleWhen) :
    ToolCallOutcome :=
  if scheduleSchemaAccepts w then
    match scheduleTaskExecute sched w with
    | .ok s => .result s
    | .error e => .crashed e
  else .invalidInput

/-- C6: a `scheduleTask` input whose discriminator is none of the three valid
trigger variants yields a validation-error result — the schema rejection, or
the in-band "Not a valid schedule input" result for the schema's fourth,
`"no-schedule"`, variant — and never a thrown exception. -/
theorem scheduleTask_invalid_discriminator (sched : Except String Unit)
    (w : ScheduleWhen) (h1 : w.type ≠ "scheduled") (h2 : w.type ≠ "delayed")
    (h3 : w.type ≠ "cron") :
    scheduleTaskCall sched w = .invalidInput ∨
      scheduleTaskCall sched w = .result "Not a valid schedule input" := by
  by_cases h0 : w.type = "no-schedule"
  · right
    simp [scheduleTaskCall, scheduleSchemaAccepts, scheduleTaskExecute, h0]
  · left
    simp [scheduleTaskCall, scheduleSchemaAccepts, h0, h1, h2, h3]

/-- Witness for C6 at the concrete discriminator `"weekly"`. -/
theorem scheduleTask_invalid_discriminator_witness :
    scheduleTaskCall (.ok ()) ⟨"weekly", none, none, none⟩ = .invalidInput ∨
      scheduleTaskCall (.ok ()) ⟨"weekly", none, none, none⟩
        = .result "Not a valid schedule input" :=
  scheduleTask_invalid_discriminator (.ok ()) ⟨"weekly", none, none, none⟩
    (by decide) (by decide) (by decide)

/-! ## The `getWeatherInformation` execution (`tools.ts` lines 161-179) -/

/-- An HTTP response as the code observes it: the `ok` flag and the parsed
JSON body. -/
structure HttpResponse (α : Type) where
  ok : Bool
  body : α
  deriving Repr, DecidableEq

/-- One geocoding hit: the fields the code reads. -/
structure GeoResult where
  lat : Int
  lon : Int
  deriving Repr, DecidableEq

/-- `executions.getWeatherInformation` (`tools.ts` lines 161-179), with the
two network interactions supplied as parameters: `geo` is the parsed
geocoding response for `location` and `weather g` the parsed forecast
response at coordinates `g`.  `Except.error` would model a thrown
exception; every branch of the source returns. -/
def getWeatherInformation (location : String)
    (geo : HttpResponse (List GeoResult))
    (weather : GeoResult → HttpResponse String) : Except String String :=
  if !geo.ok then
    .ok ("Unable to fetch weather information at " ++ location)
  else if geo.body.length < 1 then
    .ok ("Unable to fetch weather information at " ++ location)
  else
    match geo.body with
    | [] => .ok ("Unable to fetch weather information at " ++ location)
    | g :: _ =>
      if !(weather g).ok then
        .ok ("Unable to fetch weather information at " ++ location)
      else
        .ok (weather g).body

/-- C9: a non-2xx geocoding response, an empty geocoding result, or a non-2xx
forecast response makes `getWeatherInformation` return the human-readable
failure string as an ordinary result; no such failure is propagated as a
thrown exception. -/
theorem getWeather_failure_is_string (location : String)
    (geo : HttpResponse (List GeoResult))
    (weather : GeoResult → HttpResponse String)
    (h : geo.ok = false ∨ geo.body = [] ∨
      ∃ g rest, geo.body = g :: rest ∧ (weather g).ok = false) :
    getWeatherInformation location geo weather
      = .ok ("Unable to fetch weather information at " ++ location) := by
  cases hok : geo.ok with
  | false => simp [getWeatherInformation, hok]
  | true =>
    rcases h with h | h | ⟨g, rest, hb, hw⟩
    · rw [hok] at h; cases h
    · simp [getWeatherInformation, hok, h]
    · simp [getWeatherInformation, hok, hb, hw]

/-- Witness for C9 at a failed geocoding fetch for `"Austin"`. -/
theorem getWeather_failure_is_string_witness :
    getWeatherInformation "Austin" ⟨false, []⟩ (fun _ => ⟨true, "sunny"⟩)
      = .ok ("Unable to fetch weather information at " ++ "Austin") :=
  getWeather_failure_is_string "Austin" ⟨false, []⟩ (fun _ => ⟨true, "sunny"⟩)
    (Or.inl rfl)

/-! ## The orchestration loop of `Chat.onChatMessage` -/

/-- One emission of the model backend: plain text (which ends the turn) or a
tool-call request (which triggers one more model⇄tool round-trip). -/
inductive ModelStep where
  | text (s : String)
  | toolCall (name input : String)

/-- Result of one orchestration turn: the number of model⇄tool round-trips
performed, the text produced, and whether the step budget forced the
termination.  There is no error case: budget exhaustion is a designed
termination. -/
structure LoopOutcome where
  roundTrips : Nat
  texts : List String
  budgetExhausted : Bool
  deriving Repr, DecidableEq

/-- Modelled from the spec: the model⇄tool orchestration loop run by
`streamText` lives in the external `ai` package, not under `src/`; the
source configures only its stopping rule — `stopWhen: stepCountIs(10)` in
the first revision of `Chat.onChatMessage` (`server.ts` line 127) and
`stepCountIs(30)` in the final revision (line 299).  Spec §4.4: after an
auto-executed tool call "loop returns to awaiting-model ... unless the
per-turn step budget is exhausted ..., in which case the loop terminates in
done and surfaces the last text produced"; exhaustion is a forced
termination, not an error.  `model` maps the number of round-trips performed
so far to the model's next emission. -/
def runLoopAux (model : Nat → ModelStep) :
    Nat → Nat → List String → LoopOutcome
  | 0, trips, acc => ⟨trips, acc, true⟩
  | fuel + 1, trips, acc =>
    match model trips with
    | .text s => ⟨trips, acc ++ [s], false⟩
    | .toolCall _ _ => runLoopAux model fuel (trips + 1) acc

/-- One orchestration turn under step budget `budget`. -/
def runLoop (model : Nat → ModelStep) (budget : Nat) : LoopOutcome :=
  runLoopAux model budget 0 []

/-- The step budget configured in the first revision
(`stopWhen: stepCountIs(10)`, `server.ts` line 127). -/
def stepBudget_v1 : Nat := 10

/-- The step budget configured in the final revision
(`stopWhen: stepCountIs(30)`, `server.ts` line 299). -/
def stepBudget : Nat := 30

theorem runLoopAux_le (model : Nat → ModelStep) :
    ∀ fuel trips acc, (runLoopAux model fuel trips acc).roundTrips ≤ trips + fuel
  | 0, trips, acc => by simp [runLoopAux]
  | fuel + 1, trips, acc => by
    simp only [runLoopAux]
    cases model trips with
    | text s => simp
    | toolCall n i =>
      have h := runLoopAux_le model fuel (trips + 1) acc
      show (runLoopAux model fuel (trips + 1) acc).roundTrips ≤ trips + (fuel + 1)
      omega

/-- C7: for every model behaviour the orchestration loop performs at most the
configured budget of model⇄tool round-trips — 10 under the first revision's
configuration and 30 under the final one — and for the model that always
requests another tool call the turn terminates by budget exhaustion, a
normal termination carrying the text produced so far. -/
theorem loop_respects_budget (model : Nat → ModelStep) :
    (runLoop model stepBudget_v1).roundTrips ≤ stepBudget_v1 ∧
      (runLoop model stepBudget).roundTrips ≤ stepBudget ∧
      (runLoop (fun _ => .toolCall "t" "i") stepBudget).roundTrips = stepBudget ∧
      (runLoop (fun _ => .toolCall "t" "i") stepBudget).budgetExhausted = true := by
  refine ⟨?_, ?_, by decide, by decide⟩
  · have h := runLoopAux_le model stepBudget_v1 0 []
    simpa [runLoop] using h
  · have h := runLoopAux_le model stepBudget 0 []
    simpa [runLoop] using h

/-! ## The transcript resolution pass -/

/-- Status of a tool-invocation part (spec §3). -/
inductive PartStatus where
  | pendingConfirmation
  | approved
  | denied
  | autoExecuting
  | completed
  | errored
  deriving Repr, DecidableEq

/-- A tool-invocation content part. -/
structure ToolPart where
  toolName : String
  input : String
  callId : String
  status : PartStatus
  output : Option String
  deriving Repr, DecidableEq

/-- A content part: text or a tool invocation. -/
inductive Part where
  | text (s : String)
  | tool (t : ToolPart)
  deriving Repr, DecidableEq

/-- A transcript message: an id and its ordered parts. -/
structure Message where
  id : String
  parts : List Part
  deriving Repr, DecidableEq

/-- Modelled from the spec: `processToolCalls` is imported from `./utils`,
which is not under `src/`; only its call site (`server.ts` lines 95-100)
is.  Spec §4.3 resolution pass: "for every toolInvocation part with status
approved, invoke its execution function with the recorded input, capture
the output, and rewrite the part's status to completed with that output;
for status denied, rewrite to completed with a fixed denial output (no
execution) ... re-resolving an already-completed part is a no-op."  The
second component counts the tool executions performed. -/
def resolvePart (exec : String → String → String) : Part → Part × Nat
  | .tool t =>
    match t.status with
    | .approved =>
      (.tool ⟨t.toolName, t.input, t.callId, .completed,
        some (exec t.toolName t.input)⟩, 1)
    | .denied =>
      (.tool ⟨t.toolName, t.input, t.callId, .completed,
        some "Tool call denied"⟩, 0)
    | _ => (.tool t, 0)
  | .text s => (.text s, 0)

/-- Resolution of the parts of one message, in insertion order. -/
def resolveParts (exec : String → String → String) :
    List Part → List Part × Nat
  | [] => ([], 0)
  | p :: ps =>
    let r := resolvePart exec p
    let rs := resolveParts exec ps
    (r.1 :: rs.1, r.2 + rs.2)

/-- The resolution pass over a whole transcript, in message order. -/
def processToolCalls (exec : String → String → String) :
    List Message → List Message × Nat
  | [] => ([], 0)
  | m :: ms =>
    let r := resolveParts exec m.parts
    let rs := processToolCalls exec ms
    (⟨m.id, r.1⟩ :: rs.1, r.2 + rs.2)

/-- A part that is not a still-unresolved tool invocation. -/
def partCompleted : Part → Bool
  | .tool t => t.status == .completed
  | .text _ => true

/-- Every tool-invocation part of the transcript has status `completed`. -/
def allCompleted (ms : List Message) : Bool :=
  ms.all (fun m => m.parts.all partCompleted)

theorem resolvePart_completed (exec : String → String → String) (p : Part)
    (h : partCompleted p = true) : resolvePart exec p = (p, 0) := by
  cases p with
  | text s => rfl
  | tool t =>
    simp only [partCompleted, beq_iff_eq] at h
    cases ht : t.status <;> simp [resolvePart, ht] <;> rw [ht] at h <;> cases h

theorem resolveParts_completed (exec : String → String → String)
    (ps : List Part) (h : ps.all partCompleted = true) :
    resolveParts exec ps = (ps, 0) := by
  induction ps with
  | nil => rfl
  | cons p t ih =>
    rw [List.all_cons, Bool.and_eq_true] at h
    simp [resolveParts, resolvePart_completed exec p h.1, ih h.2]

/-- C8: the resolution pass is idempotent on resolved transcripts: on a
transcript in which every tool-invocation part already has status
`completed` it returns the transcript unchanged and performs zero tool
executions, so an approved call is never executed a second time. -/
theorem processToolCalls_idempotent (exec : String → String → String)
    (ms : List Message) (h : allCompleted ms = true) :
    processToolCalls exec ms = (ms, 0) := by
  induction ms with
  | nil => rfl
  | cons m t ih =>
    rw [allCompleted, List.all_cons, Bool.and_eq_true] at h
    have hm := resolveParts_completed exec m.parts h.1
    have ht : allCompleted t = true := h.2
    simp [processToolCalls, hm, ih ht]

/-- Witness for C8 at a concrete fully-resolved transcript. -/
theorem processToolCalls_idempotent_witness :
    processToolCalls (fun _ _ => "out") [⟨"m1", [.text "hi",
      .tool ⟨"createMessageInBottle", "msg", "c1", .completed, some "done"⟩]⟩]
      = ([⟨"m1", [.text "hi",
          .tool ⟨"createMessageInBottle", "msg", "c1", .completed, some "done"⟩]⟩], 0) :=
  processToolCalls_idempotent (fun _ _ => "out") _ (by decide)

/-- C10: the acknowledgement of `addMessage` is the same constant string for
every input, and popping a store holding an entry whose text is exactly the
empty-store signal succeeds and returns that very string, so at the public
string-valued interface a successful pop of such an entry is
indistinguishable from the empty-store signal. -/
theorem inBand_signals (pick : Nat) (msg : String) (s : Store) :
    addMessage pick msg s = .ok (insertRow msg s, "Message successfully added") ∧
      getMessage 0 [⟨1, emptySignal⟩] = .ok ([], emptySignal) :=
  ⟨addMessage_eq pick msg s, rfl⟩

end CfAi
